import Mathlib

/-!
Shallow embedding of the progressive ray-tracing renderer of
`src/libs/yocto_examples/yocto_raytrace.cpp` (the active `YOCTO_LIVE_CODING`
branch of that file).

Scalars are modelled as rationals.  External collaborators (the BVH
intersector, scene geometry/texture evaluation, the math library and the
PCG random generator of the yocto library) are out of scope per the spec and
are modelled as opaque pure functions bundled in a `World` record; the
renderer's own code is translated statement by statement.  The sole float
behaviour a claim depends on (division by a zero sample count inside
`get_image`) is modelled by a small IEEE-flavoured scalar type `FVal`.
-/

namespace RaytraceSpec

/-- 2-d vector of rationals (models `vec2f`). -/
structure Vec2 where
  x : ℚ
  y : ℚ
deriving DecidableEq, Repr

/-- 3-d vector of rationals (models `vec3f`). -/
structure Vec3 where
  x : ℚ
  y : ℚ
  z : ℚ
deriving DecidableEq, Repr

/-- 4-d vector of rationals (models `vec4f`); `w` is the alpha channel. -/
structure Vec4 where
  x : ℚ
  y : ℚ
  z : ℚ
  w : ℚ
deriving DecidableEq, Repr

def v3add (a b : Vec3) : Vec3 := ⟨a.x + b.x, a.y + b.y, a.z + b.z⟩

def v3sub (a b : Vec3) : Vec3 := ⟨a.x - b.x, a.y - b.y, a.z - b.z⟩

def v3neg (a : Vec3) : Vec3 := ⟨-a.x, -a.y, -a.z⟩

/-- Componentwise product, as `vec3f * vec3f` in yocto. -/
def v3mul (a b : Vec3) : Vec3 := ⟨a.x * b.x, a.y * b.y, a.z * b.z⟩

def v3smul (s : ℚ) (a : Vec3) : Vec3 := ⟨s * a.x, s * a.y, s * a.z⟩

def v3saddScalar (a : Vec3) (s : ℚ) : Vec3 := ⟨a.x + s, a.y + s, a.z + s⟩

def v4add (a b : Vec4) : Vec4 := ⟨a.x + b.x, a.y + b.y, a.z + b.z, a.w + b.w⟩

/-- `xyz(v)` of a `vec4f`. -/
def xyz (a : Vec4) : Vec3 := ⟨a.x, a.y, a.z⟩

def dot3 (a b : Vec3) : ℚ := a.x * b.x + a.y * b.y + a.z * b.z

/-- `mean(v)` of a `vec3f`. -/
def mean3 (a : Vec3) : ℚ := (a.x + a.y + a.z) / 3

def v3zero : Vec3 := ⟨0, 0, 0⟩

/-- A ray: origin and direction (models `ray3f`). -/
structure Ray where
  o : Vec3
  d : Vec3
deriving DecidableEq, Repr

/-- Opaque handle for a `rng_state` of the external yocto sampling library;
the generator itself is an external collaborator and is abstracted as pure
functions in `World`. -/
abbrev Rng := ℕ

/-- What `intersect_scene_bvh` reports on a hit: instance index, element
index, and local uv coordinates. -/
structure HitInfo where
  instIdx : ℕ
  element : ℕ
  uv : Vec2
deriving DecidableEq, Repr

/-- Material type tag (`material_type` of yocto).  The renderer's switch
names six tags and ignores the rest through its `default:` branch; the
remaining enum values are collapsed into `other`. -/
inductive MaterialType where
  | matte
  | reflective
  | transparent
  | glossy
  | refractive
  | volumetric
  | other
deriving DecidableEq, Repr

/-- Material record, restricted to the fields the renderer reads
(`material_data`).  Texture ids are integers with `-1` = `invalidid`. -/
structure MaterialData where
  mtype : MaterialType
  emission : Vec3
  color : Vec3
  roughness : ℚ
  opacity : ℚ
  ior : ℚ
  emission_tex : ℤ
  color_tex : ℤ
deriving DecidableEq, Repr

/-- Instance record: shape/material indices plus an opaque frame id
(`instance_data`); transforms by a frame are external functions. -/
structure InstanceData where
  frame : ℕ
  shape : ℕ
  material : ℕ
deriving DecidableEq, Repr

/-- The only fact about a shape the renderer branches on is whether its
`lines` vector is empty (`shape_data`); its geometry is evaluated through
external functions keyed by the shape index. -/
structure ShapeData where
  linesEmpty : Bool
deriving DecidableEq, Repr

/-- Environment record (`environment_data`). -/
structure EnvironmentData where
  frame : ℕ
  emission : Vec3
  emission_tex : ℤ
deriving DecidableEq, Repr

/-- Camera record, restricted to the fields the renderer reads
(`camera_data`); `frame` is an opaque frame id and `o` its origin
(`camera.frame.o`). -/
structure CameraData where
  frame : ℕ
  o : Vec3
  film : ℚ
  aspect : ℚ
  lens : ℚ
deriving DecidableEq, Repr

/-- Scene record (`scene_data`): the collections the renderer reads.
Textures live behind the external texture-evaluation function. -/
structure SceneData where
  cameras : List CameraData
  instances : List InstanceData
  shapes : List ShapeData
  materials : List MaterialData
  environments : List EnvironmentData
deriving DecidableEq, Repr

/-- External collaborators, specified only at their interface boundary
(spec §6): the BVH intersector, scene/shape evaluation, texture sampling,
frame transforms, the sampling-math helpers and the PCG RNG.  All are pure
functions; geometry evaluators are keyed by shape index, transforms by
frame id. -/
structure World where
  intersect : Ray → Option HitInfo
  evalPosition : ℕ → ℕ → Vec2 → Vec3
  evalNormal : ℕ → ℕ → Vec2 → Vec3
  evalTexcoord : ℕ → ℕ → Vec2 → Vec2
  evalTextureRaw : ℤ → Vec2 → Vec4
  transformPoint : ℕ → Vec3 → Vec3
  transformNormal : ℕ → Vec3 → Vec3
  transformDirInv : ℕ → Vec3 → Vec3
  normalize : Vec3 → Vec3
  orthonormalize : Vec3 → Vec3 → Vec3
  sampleHemisphereCos : Vec3 → Vec2 → Vec3
  sampleHemisphereCosPower : ℚ → Vec3 → Vec2 → Vec3
  reflect : Vec3 → Vec3 → Vec3
  refract : Vec3 → Vec3 → ℚ → Vec3
  fresnelSchlick : Vec3 → Vec3 → Vec3 → Vec3
  fresnelDielectric : ℚ → Vec3 → Vec3 → ℚ
  srgbToRgb : Vec3 → Vec3
  atan2 : ℚ → ℚ → ℚ
  acos : ℚ → ℚ
  pif : ℚ
  makeRng : ℕ → ℕ → Rng
  rand1f : Rng → ℚ × Rng
  rand1i : Rng → ℕ → ℕ × Rng

/-- `rand2f`: two sequential `rand1f` draws, first the x component. -/
def rand2f (w : World) (rng : Rng) : Vec2 × Rng :=
  let p1 := w.rand1f rng
  let p2 := w.rand1f p1.2
  (⟨p1.1, p2.1⟩, p2.2)

/-- `eval_texture(scene, texture_id, uv, true)` of the external library:
an invalid texture id (`invalidid = -1`) evaluates to `{1, 1, 1, 1}`,
otherwise the texture is sampled. -/
def evalTexture (w : World) (texId : ℤ) (uv : Vec2) : Vec4 :=
  if texId = -1 then ⟨1, 1, 1, 1⟩ else w.evalTextureRaw texId uv

/-- Default records for `.at`-style container lookups; the spec's scene
invariant (§3) guarantees indices are in range, so defaults are never hit
on claim-relevant inputs. -/
def defaultMaterial : MaterialData :=
  ⟨MaterialType.other, v3zero, v3zero, 0, 0, 0, -1, -1⟩

def defaultInstance : InstanceData := ⟨0, 0, 0⟩

def defaultShape : ShapeData := ⟨true⟩

def defaultCamera : CameraData := ⟨0, v3zero, 0, 1, 0⟩

/-- `eval_camera(camera, uv)` (yocto_raytrace.cpp, lines 50-56):
`ql = {(0.5-u)*film, (v-0.5)*film/aspect, lens}`, `q = transform_point(frame, ql)`,
`e = frame.o`, ray `= {e, -normalize(q - e)}`. -/
def eval_camera (w : World) (camera : CameraData) (uv : Vec2) : Ray :=
  let ql : Vec3 := ⟨(1/2 - uv.x) * camera.film,
    (uv.y - 1/2) * camera.film / camera.aspect, camera.lens⟩
  let q := w.transformPoint camera.frame ql
  let e := camera.o
  ⟨e, v3neg (w.normalize (v3sub q e))⟩

/-- `eval_environment_(scene, environment, direction)` (lines 66-74):
emission, modulated by the emission texture looked up at the
latitude-longitude uv of the inverse-transformed direction. -/
def eval_environment_ (w : World) (environment : EnvironmentData)
    (direction : Vec3) : Vec3 :=
  if environment.emission_tex = -1 then environment.emission
  else
    let ldirection := w.transformDirInv environment.frame direction
    let uv : Vec2 := ⟨w.atan2 ldirection.z ldirection.x / (2 * w.pif),
      w.acos ldirection.y / w.pif⟩
    v3mul environment.emission (xyz (evalTexture w environment.emission_tex uv))

/-- Sum of `eval_environment_` over every environment of the scene, as the
miss branches of `shade_raytrace` and `shade_matte` accumulate it. -/
def envRadiance (w : World) (scene : SceneData) (direction : Vec3) : Vec3 :=
  scene.environments.foldl
    (fun acc environment => v3add acc (eval_environment_ w environment direction))
    v3zero

/-- Modelled from the spec: the render-parameter record `raytrace_params`
is declared in `yocto_raytrace.h`, which is not under `src/`; the spec (§3)
lists its fields: camera index, output resolution, shader-variant selector,
target sample count, maximum bounce depth, parallel/serial flag and preview
downscale ratio.  `shader` is kept as the raw enumeration value so that
values outside the recognized range can be expressed, as the C++ enum
allows. -/
structure RaytraceParams where
  camera : ℕ
  resolution : ℕ
  shader : ℕ
  samples : ℕ
  bounces : ℤ
  noparallel : Bool
  pratio : ℕ
deriving DecidableEq, Repr

/-- `shade_raytrace` (yocto_raytrace.cpp, lines 77-194), with an explicit
recursion fuel since the C++ recursion has no structural bound; `none`
means the fuel was exhausted, i.e. the call would have recursed deeper.
The body mirrors the source statement by statement: miss branch summing
environment emission with alpha 1; geometry/material evaluation; the
normal correction (orthonormalize for line shapes, otherwise flip towards
the outgoing direction); the stochastic opacity pass-through placed BEFORE
the bounce check; the bounce-budget check returning emission; and the
per-material-type sampling switch. -/
def shade_raytrace (w : World) (scene : SceneData) (params : RaytraceParams) :
    ℕ → Ray → ℤ → Rng → Option (Vec4 × Rng)
  | 0, _, _, _ => none
  | fuel + 1, ray, bounce, rng =>
    match w.intersect ray with
    | none =>
      let radiance := envRadiance w scene ray.d
      some (⟨radiance.x, radiance.y, radiance.z, 1⟩, rng)
    | some intersection =>
      let inst := scene.instances.getD intersection.instIdx defaultInstance
      let shape := scene.shapes.getD inst.shape defaultShape
      let material := scene.materials.getD inst.material defaultMaterial
      let outgoing := v3neg ray.d
      let position := w.transformPoint inst.frame
        (w.evalPosition inst.shape intersection.element intersection.uv)
      let normal0 := w.transformNormal inst.frame
        (w.evalNormal inst.shape intersection.element intersection.uv)
      let texcoord := w.evalTexcoord inst.shape intersection.element intersection.uv
      let emission := v3mul material.emission
        (xyz (evalTexture w material.emission_tex texcoord))
      let color := v3mul material.color
        (xyz (evalTexture w material.color_tex texcoord))
      let opacity := material.opacity * (evalTexture w material.color_tex texcoord).w
      let roughness := material.roughness
      let exponent : ℚ := 2 / roughness ^ 4
      let entering : Bool := decide (0 < dot3 normal0 outgoing)
      let normal :=
        if shape.linesEmpty then
          (if dot3 normal0 outgoing < 0 then v3neg normal0 else normal0)
        else w.orthonormalize outgoing normal0
      let op := w.rand1f rng
      if op.1 < 1 - opacity then
        shade_raytrace w scene params fuel ⟨position, ray.d⟩ (bounce + 1) op.2
      else
        if bounce > params.bounces then
          some (⟨emission.x, emission.y, emission.z, 1⟩, op.2)
        else
          match material.mtype with
          | MaterialType.matte =>
            let s := rand2f w op.2
            let incoming := w.sampleHemisphereCos normal s.1
            match shade_raytrace w scene params fuel ⟨position, incoming⟩
                (bounce + 1) s.2 with
            | none => none
            | some (res, rng2) =>
              let radiance := v3add emission (v3mul color (xyz res))
              some (⟨radiance.x, radiance.y, radiance.z, 1⟩, rng2)
          | MaterialType.reflective =>
            let mn := if roughness = 0 then (normal, op.2)
              else
                let s := rand2f w op.2
                (w.sampleHemisphereCosPower exponent normal s.1, s.2)
            let incoming := w.reflect outgoing mn.1
            match shade_raytrace w scene params fuel ⟨position, incoming⟩
                (bounce + 1) mn.2 with
            | none => none
            | some (res, rng2) =>
              let radiance := v3add emission
                (v3mul (w.fresnelSchlick color mn.1 outgoing) (xyz res))
              some (⟨radiance.x, radiance.y, radiance.z, 1⟩, rng2)
          | MaterialType.transparent =>
            let mn := if roughness = 0 then (normal, op.2)
              else
                let s := rand2f w op.2
                (w.sampleHemisphereCosPower exponent normal s.1, s.2)
            let fr := w.rand1f mn.2
            if fr.1 < mean3 (w.fresnelSchlick ⟨4/100, 4/100, 4/100⟩ mn.1 outgoing) then
              let incoming := w.reflect outgoing mn.1
              match shade_raytrace w scene params fuel ⟨position, incoming⟩
                  (bounce + 1) fr.2 with
              | none => none
              | some (res, rng2) =>
                let radiance := v3add emission (xyz res)
                some (⟨radiance.x, radiance.y, radiance.z, 1⟩, rng2)
            else
              let incoming := v3neg outgoing
              match shade_raytrace w scene params fuel ⟨position, incoming⟩
                  (bounce + 1) fr.2 with
              | none => none
              | some (res, rng2) =>
                let radiance := v3add emission (v3mul color (xyz res))
                some (⟨radiance.x, radiance.y, radiance.z, 1⟩, rng2)
          | MaterialType.glossy =>
            let mn := if roughness = 0 then (normal, op.2)
              else
                let s := rand2f w op.2
                (w.sampleHemisphereCosPower exponent normal s.1, s.2)
            let fr := w.rand1f mn.2
            if fr.1 < mean3 (w.fresnelSchlick ⟨4/100, 4/100, 4/100⟩ mn.1 outgoing) then
              let incoming := w.reflect outgoing mn.1
              match shade_raytrace w scene params fuel ⟨position, incoming⟩
                  (bounce + 1) fr.2 with
              | none => none
              | some (res, rng2) =>
                let radiance := v3add emission (xyz res)
                some (⟨radiance.x, radiance.y, radiance.z, 1⟩, rng2)
            else
              let s := rand2f w fr.2
              let incoming := w.sampleHemisphereCos normal s.1
              match shade_raytrace w scene params fuel ⟨position, incoming⟩
                  (bounce + 1) s.2 with
              | none => none
              | some (res, rng2) =>
                let radiance := v3add emission (v3mul color (xyz res))
                some (⟨radiance.x, radiance.y, radiance.z, 1⟩, rng2)
          | MaterialType.refractive =>
            let mn := if roughness = 0 then (normal, op.2)
              else
                let s := rand2f w op.2
                (w.sampleHemisphereCosPower exponent normal s.1, s.2)
            let fr := w.rand1f mn.2
            if fr.1 < w.fresnelDielectric
                (if entering then material.ior else 1 / material.ior) mn.1 outgoing then
              let incoming := w.reflect outgoing mn.1
              match shade_raytrace w scene params fuel ⟨position, incoming⟩
                  (bounce + 1) fr.2 with
              | none => none
              | some (res, rng2) =>
                let radiance := v3add emission (xyz res)
                some (⟨radiance.x, radiance.y, radiance.z, 1⟩, rng2)
            else
              let incoming := w.refract outgoing normal
                (if entering then 1 / material.ior else material.ior)
              match shade_raytrace w scene params fuel ⟨position, incoming⟩
                  (bounce + 1) fr.2 with
              | none => none
              | some (res, rng2) =>
                let radiance := v3add emission (v3mul color (xyz res))
                some (⟨radiance.x, radiance.y, radiance.z, 1⟩, rng2)
          | MaterialType.volumetric =>
            let s := rand2f w op.2
            let incoming := w.sampleHemisphereCos normal s.1
            match shade_raytrace w scene params fuel ⟨position, incoming⟩
                (bounce + 1) s.2 with
            | none => none
            | some (res, rng2) =>
              let radiance := v3add emission (v3mul color (xyz res))
              some (⟨radiance.x, radiance.y, radiance.z, 1⟩, rng2)
          | MaterialType.other =>
            some (⟨emission.x, emission.y, emission.z, 1⟩, op.2)

/-- `shade_matte` (lines 197-229), fueled like `shade_raytrace`.  It has
no opacity handling and no normal correction; on a hit it accumulates
emission, stops when the bounce budget is exceeded, and otherwise samples
one cosine-weighted diffuse bounce recursing into itself. -/
def shade_matte (w : World) (scene : SceneData) (params : RaytraceParams) :
    ℕ → Ray → ℤ → Rng → Option (Vec4 × Rng)
  | 0, _, _, _ => none
  | fuel + 1, ray, bounce, rng =>
    match w.intersect ray with
    | none =>
      let radiance := envRadiance w scene ray.d
      some (⟨radiance.x, radiance.y, radiance.z, 1⟩, rng)
    | some intersection =>
      let inst := scene.instances.getD intersection.instIdx defaultInstance
      let material := scene.materials.getD inst.material defaultMaterial
      let position := w.transformPoint inst.frame
        (w.evalPosition inst.shape intersection.element intersection.uv)
      let normal := w.transformNormal inst.frame
        (w.evalNormal inst.shape intersection.element intersection.uv)
      let texcoord := w.evalTexcoord inst.shape intersection.element intersection.uv
      let emission := v3mul material.emission
        (xyz (evalTexture w material.emission_tex texcoord))
      let color := v3mul material.color
        (xyz (evalTexture w material.color_tex texcoord))
      if bounce > params.bounces then
        some (⟨emission.x, emission.y, emission.z, 1⟩, rng)
      else
        let s := rand2f w rng
        let incoming := w.sampleHemisphereCos normal s.1
        match shade_matte w scene params fuel ⟨position, incoming⟩
            (bounce + 1) s.2 with
        | none => none
        | some (res, rng2) =>
          let radiance := v3add emission (v3mul color (xyz res))
          some (⟨radiance.x, radiance.y, radiance.z, 1⟩, rng2)

/-- `shade_eyelight` (lines 232-244): on a miss returns `{0,0,0,0}`; on a
hit returns the material color scaled by `dot(normal, -ray.d)` with
alpha 1.  Non-recursive; draws nothing from the RNG. -/
def shade_eyelight (w : World) (scene : SceneData) (_params : RaytraceParams)
    (ray : Ray) (_bounce : ℤ) (rng : Rng) : Vec4 × Rng :=
  match w.intersect ray with
  | none => (⟨0, 0, 0, 0⟩, rng)
  | some intersection =>
    let inst := scene.instances.getD intersection.instIdx defaultInstance
    let material := scene.materials.getD inst.material defaultMaterial
    let normal := w.transformNormal inst.frame
      (w.evalNormal inst.shape intersection.element intersection.uv)
    let radiance := v3smul (dot3 normal (v3neg ray.d)) material.color
    (⟨radiance.x, radiance.y, radiance.z, 1⟩, rng)

/-- `shade_normal` (lines 246-257): on a miss returns `{0,0,0,0}`; on a
hit returns `srgb_to_rgb(normal * 0.5 + 0.5)` with alpha 1. -/
def shade_normal (w : World) (scene : SceneData) (_params : RaytraceParams)
    (ray : Ray) (_bounce : ℤ) (rng : Rng) : Vec4 × Rng :=
  match w.intersect ray with
  | none => (⟨0, 0, 0, 0⟩, rng)
  | some intersection =>
    let inst := scene.instances.getD intersection.instIdx defaultInstance
    let normal := w.transformNormal inst.frame
      (w.evalNormal inst.shape intersection.element intersection.uv)
    let color := w.srgbToRgb (v3saddScalar (v3smul (1/2) normal) (1/2))
    (⟨color.x, color.y, color.z, 1⟩, rng)

/-- `shade_texcoord` (lines 259-264): the body is unimplemented
("YOUR CODE GOES HERE") and returns the zero-initialized `vec4f`
unconditionally, without even querying the intersector. -/
def shade_texcoord (_w : World) (_scene : SceneData) (_params : RaytraceParams)
    (_ray : Ray) (_bounce : ℤ) (rng : Rng) : Vec4 × Rng :=
  (⟨0, 0, 0, 0⟩, rng)

/-- `shade_color` (lines 266-275): on a miss returns `{0,0,0,0}`; on a hit
returns the material color with alpha 1.  It ignores the bounce depth and
draws nothing from the RNG. -/
def shade_color (w : World) (scene : SceneData) (_params : RaytraceParams)
    (ray : Ray) (_bounce : ℤ) (rng : Rng) : Vec4 × Rng :=
  match w.intersect ray with
  | none => (⟨0, 0, 0, 0⟩, rng)
  | some intersection =>
    let inst := scene.instances.getD intersection.instIdx defaultInstance
    let material := scene.materials.getD inst.material defaultMaterial
    (⟨material.color.x, material.color.y, material.color.z, 1⟩, rng)

/-- The closed enumeration of shading variants dispatched by `get_shader`. -/
inductive ShaderKind where
  | raytrace
  | matte
  | eyelight
  | normal
  | texcoord
  | color
deriving DecidableEq, Repr

/-- `get_shader(params)` (lines 281-294): dispatch on the raw shader value.
The numbering 0-5 follows the declaration order of `raytrace_shader_type`
(raytrace, matte, eyelight, normal, texcoord, color); any other value falls
into the `default:` branch, which throws `"sampler unknown"`, modelled as
`none`. -/
def get_shader (params : RaytraceParams) : Option ShaderKind :=
  match params.shader with
  | 0 => some ShaderKind.raytrace
  | 1 => some ShaderKind.matte
  | 2 => some ShaderKind.eyelight
  | 3 => some ShaderKind.normal
  | 4 => some ShaderKind.texcoord
  | 5 => some ShaderKind.color
  | _ => none

/-- Apply a dispatched shader at the given fuel.  The four non-recursive
variants always succeed and ignore the fuel. -/
def applyShader (sk : ShaderKind) (w : World) (scene : SceneData)
    (params : RaytraceParams) (fuel : ℕ) (ray : Ray) (bounce : ℤ)
    (rng : Rng) : Option (Vec4 × Rng) :=
  match sk with
  | ShaderKind.raytrace => shade_raytrace w scene params fuel ray bounce rng
  | ShaderKind.matte => shade_matte w scene params fuel ray bounce rng
  | ShaderKind.eyelight => some (shade_eyelight w scene params ray bounce rng)
  | ShaderKind.normal => some (shade_normal w scene params ray bounce rng)
  | ShaderKind.texcoord => some (shade_texcoord w scene params ray bounce rng)
  | ShaderKind.color => some (shade_color w scene params ray bounce rng)

/-- `raytrace_state` (spec §3 / header): width, height, sample counter,
accumulation buffer, hit-count buffer and per-pixel RNG streams, all sized
`width * height`. -/
structure RaytraceState where
  width : ℕ
  height : ℕ
  samples : ℕ
  image : List Vec4
  hits : List ℕ
  rngs : List Rng
deriving DecidableEq, Repr

/-- The RNG-seeding loop of `make_raytrace_state` (lines 318-321): one
seed generator `rng_` is threaded through the pixels in order, and pixel
`k` receives `make_rng(961748941, rand1i(rng_, 1 << 31) / 2 + 1)`. -/
def seedRngs (w : World) : ℕ → Rng → List Rng
  | 0, _ => []
  | n + 1, rngSeed =>
    let r := w.rand1i rngSeed (2 ^ 31)
    w.makeRng 961748941 (r.1 / 2 + 1) :: seedRngs w n r.2

/-- `make_raytrace_state(scene, params)` (lines 303-323): derive
width/height from the camera aspect and the long-edge resolution, zero the
accumulation and hit buffers, and seed the per-pixel RNG streams from the
fixed constants 1301081 (seed generator) and 961748941 (per-pixel seed). -/
def make_raytrace_state (w : World) (scene : SceneData)
    (params : RaytraceParams) : RaytraceState :=
  let camera := scene.cameras.getD params.camera defaultCamera
  let wh : ℕ × ℕ :=
    if 1 ≤ camera.aspect then
      (params.resolution, (round ((params.resolution : ℚ) / camera.aspect)).toNat)
    else
      ((round ((params.resolution : ℚ) * camera.aspect)).toNat, params.resolution)
  let npix := wh.1 * wh.2
  { width := wh.1
    height := wh.2
    samples := 0
    image := List.replicate npix ⟨0, 0, 0, 0⟩
    hits := List.replicate npix 0
    rngs := seedRngs w npix (w.makeRng 1301081 1) }

/-- Errors a sampling pass can surface in the model: the
`"sampler unknown"` throw of `get_shader`, and exhaustion of the recursion
fuel (a model artifact marking a computation the C++ code would run
without bound). -/
inductive RenderErr where
  | configError
  | fuelOut
deriving DecidableEq, Repr

/-- Per-pixel body of the sequential branch of `raytrace_samples`
(lines 332-343): jitter the sub-pixel position with two draws from the
pixel's own RNG stream (x first), trace the camera ray through the
selected shader at bounce 0, add the result into the accumulation slot,
and bump the hit counter only when the returned alpha is positive. -/
def seqPixel (w : World) (scene : SceneData) (params : RaytraceParams)
    (camera : CameraData) (sk : ShaderKind) (fuel : ℕ)
    (st : RaytraceState) (idx : ℕ) : Option RaytraceState :=
  let i := idx % st.width
  let j := idx / st.width
  let rng := st.rngs.getD idx 0
  let u1 := w.rand1f rng
  let u2 := w.rand1f u1.2
  let uv : Vec2 := ⟨((i : ℚ) + u1.1) / (st.width : ℚ),
    ((j : ℚ) + u2.1) / (st.height : ℚ)⟩
  let ray := eval_camera w camera uv
  match applyShader sk w scene params fuel ray 0 u2.2 with
  | none => none
  | some (color, rng') =>
    some { st with
      image := st.image.set idx (v4add (st.image.getD idx ⟨0, 0, 0, 0⟩) color)
      hits := st.hits.set idx
        (st.hits.getD idx 0 + (if 0 < color.w then 1 else 0))
      rngs := st.rngs.set idx rng' }

/-- Per-pixel body of the pixel-parallel branch of `raytrace_samples`
(lines 345-354).  Note, directly from the source: the color is computed by
`shade_color(scene, bvh, ray, params.bounces, rng, params)` — the hardcoded
`shade_color` variant at bounce `params.bounces` — not by the shader
selected through `get_shader`. -/
def parPixel (w : World) (scene : SceneData) (params : RaytraceParams)
    (camera : CameraData) (st : RaytraceState) (idx : ℕ) : RaytraceState :=
  let i := idx % st.width
  let j := idx / st.width
  let rng := st.rngs.getD idx 0
  let u1 := w.rand1f rng
  let u2 := w.rand1f u1.2
  let uv : Vec2 := ⟨((i : ℚ) + u1.1) / (st.width : ℚ),
    ((j : ℚ) + u2.1) / (st.height : ℚ)⟩
  let ray := eval_camera w camera uv
  let cr := shade_color w scene params ray params.bounces u2.2
  { st with
    image := st.image.set idx (v4add (st.image.getD idx ⟨0, 0, 0, 0⟩) cr.1)
    hits := st.hits.set idx
      (st.hits.getD idx 0 + (if 0 < cr.1.w then 1 else 0))
    rngs := st.rngs.set idx cr.2 }

/-- Fold of `seqPixel` over a pixel-index list, stopping at the state
reached so far if some pixel runs out of fuel. -/
def seqFold (w : World) (scene : SceneData) (params : RaytraceParams)
    (camera : CameraData) (sk : ShaderKind) (fuel : ℕ) :
    List ℕ → RaytraceState → RaytraceState × Option RenderErr
  | [], st => (st, none)
  | idx :: rest, st =>
    match seqPixel w scene params camera sk fuel st idx with
    | none => (st, some RenderErr.fuelOut)
    | some st' => seqFold w scene params camera sk fuel rest st'

/-- `raytrace_samples(state, scene, bvh, params)` (lines 326-357).  The
camera is fetched and `get_shader` is called before any pixel work; an
unrecognized shader value therefore aborts the pass with the state
untouched.  The sequential branch visits pixels in row-major index order
(the C++ `j` outer / `i` inner loops); the `parallel_for` branch is
modelled in the same index order, which is sound because each pixel body
reads and writes only its own image/hit/RNG slots, so every interleaving
produces this same result.  On success the sample counter is incremented
by exactly one. -/
def raytrace_samples (fuel : ℕ) (w : World) (scene : SceneData)
    (params : RaytraceParams) (st : RaytraceState) :
    RaytraceState × Option RenderErr :=
  let camera := scene.cameras.getD params.camera defaultCamera
  match get_shader params with
  | none => (st, some RenderErr.configError)
  | some sk =>
    if params.noparallel then
      match seqFold w scene params camera sk fuel
          (List.range (st.width * st.height)) st with
      | (st', none) => ({ st' with samples := st'.samples + 1 }, none)
      | (st', some e) => (st', some e)
    else
      let st' := (List.range (st.width * st.height)).foldl
        (parPixel w scene params camera) st
      ({ st' with samples := st'.samples + 1 }, none)

/-- `isfinite(radiance)` of the async worker: every rational is finite, so
the non-finite clamping branch of the worker is unreachable in this
model. -/
def isfiniteV4 (_v : Vec4) : Bool := true

/-- Per-pixel body of the async worker of `raytrace_start`
(lines 375-385): same jitter and shader call as the sequential driver, a
non-finite clamp to zero, but the hit counter is incremented by one
UNCONDITIONALLY (`state.hits[idx] += 1`), regardless of the returned
alpha. -/
def asyncPixel (w : World) (scene : SceneData) (params : RaytraceParams)
    (camera : CameraData) (sk : ShaderKind) (fuel : ℕ)
    (st : RaytraceState) (idx : ℕ) : Option RaytraceState :=
  let i := idx % st.width
  let j := idx / st.width
  let rng := st.rngs.getD idx 0
  let u1 := w.rand1f rng
  let u2 := w.rand1f u1.2
  let uv : Vec2 := ⟨((i : ℚ) + u1.1) / (st.width : ℚ),
    ((j : ℚ) + u2.1) / (st.height : ℚ)⟩
  let ray := eval_camera w camera uv
  match applyShader sk w scene params fuel ray 0 u2.2 with
  | none => none
  | some (radiance0, rng') =>
    let radiance := if isfiniteV4 radiance0 then radiance0 else ⟨0, 0, 0, 0⟩
    some { st with
      image := st.image.set idx (v4add (st.image.getD idx ⟨0, 0, 0, 0⟩) radiance)
      hits := st.hits.set idx (st.hits.getD idx 0 + 1)
      rngs := st.rngs.set idx rng' }

/-- Fold of the async worker's `parallel_for` body.  `stopAt idx` records
whether the cooperative stop flag was already observable when pixel `idx`'s
body ran (`if (context.stop) return;`), abstracting the schedule; a stopped
pixel's body returns without touching the state. -/
def asyncFold (w : World) (scene : SceneData) (params : RaytraceParams)
    (camera : CameraData) (sk : ShaderKind) (fuel : ℕ) (stopAt : ℕ → Bool) :
    List ℕ → RaytraceState → RaytraceState × Option RenderErr
  | [], st => (st, none)
  | idx :: rest, st =>
    if stopAt idx then asyncFold w scene params camera sk fuel stopAt rest st
    else
      match asyncPixel w scene params camera sk fuel st idx with
      | none => (st, some RenderErr.fuelOut)
      | some st' => asyncFold w scene params camera sk fuel stopAt rest st'

/-- The worker launched by `raytrace_start` (lines 371-389), parametrized
by where the stop flag was observed: at the worker's entry check
(`stopAtStart`), at individual pixels (`stopAt`), and at the final check
before `context.done = true` (`stopAtEnd`).  Returns the new state and the
resulting `done` flag.  Directly from the source: after the `parallel_for`
the worker executes `state.samples += 1` UNCONDITIONALLY — the increment is
not guarded by the stop flag — and only the `done` assignment is. -/
def raytrace_start_run (fuel : ℕ) (w : World) (scene : SceneData)
    (params : RaytraceParams) (stopAtStart : Bool) (stopAt : ℕ → Bool)
    (stopAtEnd : Bool) (st : RaytraceState) :
    (RaytraceState × Bool) × Option RenderErr :=
  if stopAtStart then ((st, false), none)
  else
    let camera := scene.cameras.getD params.camera defaultCamera
    match get_shader params with
    | none => ((st, false), some RenderErr.configError)
    | some sk =>
      match asyncFold w scene params camera sk fuel stopAt
          (List.range (st.width * st.height)) st with
      | (st', some e) => ((st', false), some e)
      | (st', none) =>
        let st'' := { st' with samples := st'.samples + 1 }
        ((st'', !stopAtEnd), none)

/-- `raytrace_start` (lines 365-390): refuse to start when the target
sample count is reached (leaving the previous `done` flag in place),
otherwise clear the flags and run the worker. -/
def raytrace_start (fuel : ℕ) (w : World) (scene : SceneData)
    (params : RaytraceParams) (stopAtStart : Bool) (stopAt : ℕ → Bool)
    (stopAtEnd : Bool) (st : RaytraceState) (prevDone : Bool) :
    (RaytraceState × Bool) × Option RenderErr :=
  if params.samples ≤ st.samples then ((st, prevDone), none)
  else raytrace_start_run fuel w scene params stopAtStart stopAt stopAtEnd st

/-- IEEE-flavoured scalar for the display-image normalization of
`get_image`: a finite rational, a signed infinity, or NaN.  This captures
the one float behaviour a claim depends on — `1.0f / 0.0f = +inf` and
`0.0f * inf = NaN` — exactly as IEC 559 defines those operations. -/
inductive FVal where
  | fin (q : ℚ)
  | inf
  | neginf
  | nan
deriving DecidableEq, Repr

/-- IEEE division restricted to the shapes `get_image` produces:
`finite / 0` gives a signed infinity (NaN for `0 / 0`), otherwise exact
division; any non-finite operand yields NaN (such operands never arise
here). -/
def fdiv : FVal → FVal → FVal
  | FVal.fin a, FVal.fin b =>
    if b = 0 then
      (if a = 0 then FVal.nan else if 0 < a then FVal.inf else FVal.neginf)
    else FVal.fin (a / b)
  | _, _ => FVal.nan

/-- IEEE multiplication on the cases reachable from `get_image`:
finite×finite is exact, `0 × ±inf = NaN`, nonzero finite×infinity keeps
the product's sign, infinities multiply by sign, NaN propagates. -/
def fmul : FVal → FVal → FVal
  | FVal.fin a, FVal.fin b => FVal.fin (a * b)
  | FVal.fin a, FVal.inf =>
    if a = 0 then FVal.nan else if 0 < a then FVal.inf else FVal.neginf
  | FVal.fin a, FVal.neginf =>
    if a = 0 then FVal.nan else if 0 < a then FVal.neginf else FVal.inf
  | FVal.inf, FVal.fin a =>
    if a = 0 then FVal.nan else if 0 < a then FVal.inf else FVal.neginf
  | FVal.neginf, FVal.fin a =>
    if a = 0 then FVal.nan else if 0 < a then FVal.neginf else FVal.inf
  | FVal.inf, FVal.inf => FVal.inf
  | FVal.inf, FVal.neginf => FVal.neginf
  | FVal.neginf, FVal.inf => FVal.neginf
  | FVal.neginf, FVal.neginf => FVal.inf
  | _, _ => FVal.nan

/-- A display pixel: four float channels. -/
structure FColor where
  x : FVal
  y : FVal
  z : FVal
  w : FVal
deriving DecidableEq, Repr

/-- A scalar is a well-defined displayable value when it is finite
(neither an infinity nor NaN). -/
def FVal.isDisplayable : FVal → Bool
  | FVal.fin _ => true
  | _ => false

def FColor.isDisplayable (c : FColor) : Bool :=
  c.x.isDisplayable && c.y.isDisplayable && c.z.isDisplayable && c.w.isDisplayable

/-- `color_image`: dimensions, the linear/display-encoded flag, and the
pixel buffer. -/
structure ColorImage where
  width : ℕ
  height : ℕ
  linear : Bool
  pixels : List FColor
deriving DecidableEq, Repr

/-- `make_image(width, height, linear)` of the external library: a
zero-initialized pixel buffer of `width * height` entries. -/
def make_image (width height : ℕ) (linear : Bool) : ColorImage :=
  ⟨width, height, linear,
    List.replicate (width * height) ⟨FVal.fin 0, FVal.fin 0, FVal.fin 0, FVal.fin 0⟩⟩

/-- The two exceptions `check_image` (lines 420-427) can throw: a
width/height mismatch (`"image should have the same size"`) and a
color-space flag mismatch (`"expected linear image"` / srgb). -/
inductive ImgErr where
  | sizeMismatch
  | spaceMismatch
deriving DecidableEq, Repr

/-- `check_image(image, width, height, linear)` (lines 420-427): size is
checked first, then the linear flag. -/
def check_image (image : ColorImage) (width height : ℕ) (linear : Bool) :
    Option ImgErr :=
  if image.width ≠ width ∨ image.height ≠ height then some ImgErr.sizeMismatch
  else if image.linear ≠ linear then some ImgErr.spaceMismatch
  else none

/-- One normalized display pixel: the accumulated RGBA times the scale
factor, componentwise, in float arithmetic. -/
def normPixel (scale : FVal) (v : Vec4) : FColor :=
  ⟨fmul (FVal.fin v.x) scale, fmul (FVal.fin v.y) scale,
    fmul (FVal.fin v.z) scale, fmul (FVal.fin v.w) scale⟩

/-- `get_image(image, state)` (lines 435-441), in destination-passing
style: `check_image(image, state.width, state.height, true)` runs before
any write, so on a mismatch the destination is returned unmodified next to
the error; otherwise every pixel is set to the accumulated RGBA times
`scale = 1.0f / (float)state.samples`. -/
def get_image_into (image : ColorImage) (st : RaytraceState) :
    ColorImage × Option ImgErr :=
  match check_image image st.width st.height true with
  | some e => (image, some e)
  | none =>
    let scale := fdiv (FVal.fin 1) (FVal.fin (st.samples : ℚ))
    ({ image with pixels := st.image.map (normPixel scale) }, none)

/-- `get_image(state)` (lines 430-434): allocate a matching linear image
and fill it through the destination-passing overload. -/
def get_image_state (st : RaytraceState) : ColorImage :=
  (get_image_into (make_image st.width st.height true) st).1

/-! Concrete instances of the external collaborators and small scenes,
used to evaluate the model on closed inputs. -/

/-- A concrete collaborator world whose intersector always reports a miss
and whose abstract functions are simple total maps; `rand1f` yields 0 and
steps the stream handle. -/
def baseWorld : World where
  intersect := fun _ => none
  evalPosition := fun _ _ _ => v3zero
  evalNormal := fun _ _ _ => ⟨0, 0, 1⟩
  evalTexcoord := fun _ _ _ => ⟨0, 0⟩
  evalTextureRaw := fun _ _ => ⟨1, 1, 1, 1⟩
  transformPoint := fun _ v => v
  transformNormal := fun _ v => v
  transformDirInv := fun _ v => v
  normalize := fun v => v
  orthonormalize := fun _ v => v
  sampleHemisphereCos := fun n _ => n
  sampleHemisphereCosPower := fun _ n _ => n
  reflect := fun _ n => n
  refract := fun o _ _ => o
  fresnelSchlick := fun c _ _ => c
  fresnelDielectric := fun _ _ _ => 0
  srgbToRgb := fun v => v
  atan2 := fun _ _ => 0
  acos := fun _ => 0
  pif := 3
  makeRng := fun a b => a + b
  rand1f := fun r => (0, r + 1)
  rand1i := fun r _ => (0, r + 1)

def hit0 : HitInfo := ⟨0, 0, ⟨0, 0⟩⟩

/-- Like `baseWorld`, but rays anchored at the origin hit instance 0 and
the hit point evaluates to `(0, 0, 5)`, so any continuation ray cast from
the hit point misses. -/
def hitWorld : World :=
  { baseWorld with
    intersect := fun r => if r.o = v3zero then some hit0 else none
    evalPosition := fun _ _ _ => ⟨0, 0, 5⟩ }

def cam0 : CameraData := ⟨0, v3zero, 1, 1, 1⟩

/-- Fully opaque emissive matte material with no textures. -/
def matEmissive : MaterialData :=
  ⟨MaterialType.matte, ⟨7, 7, 7⟩, ⟨1/2, 1/2, 1/2⟩, 0, 1, 3/2, -1, -1⟩

/-- Fully transparent (opacity 0) emissive matte material. -/
def matClear : MaterialData :=
  ⟨MaterialType.matte, ⟨5, 5, 5⟩, ⟨1/2, 1/2, 1/2⟩, 0, 0, 3/2, -1, -1⟩

def inst0 : InstanceData := ⟨0, 0, 0⟩

def shape0 : ShapeData := ⟨true⟩

def env0 : EnvironmentData := ⟨0, ⟨5, 5, 5⟩, -1⟩

/-- One camera, one opaque emissive instance, no environments. -/
def noEnvScene : SceneData := ⟨[cam0], [inst0], [shape0], [matEmissive], []⟩

/-- Same scene with one environment light of emission `(5,5,5)`. -/
def envScene : SceneData := ⟨[cam0], [inst0], [shape0], [matEmissive], [env0]⟩

/-- One camera, one fully transparent instance, no environments. -/
def clearScene : SceneData := ⟨[cam0], [inst0], [shape0], [matClear], []⟩

def ray0 : Ray := ⟨v3zero, ⟨0, 0, 1⟩⟩

def pRay : RaytraceParams := ⟨0, 1, 0, 4096, 4, true, 8⟩

def pRayPar : RaytraceParams := { pRay with noparallel := false }

def pMatte0 : RaytraceParams := ⟨0, 1, 1, 4096, 0, true, 8⟩

def pB0 : RaytraceParams := ⟨0, 1, 0, 4096, 0, true, 8⟩

def pColor : RaytraceParams := ⟨0, 1, 5, 4096, 4, true, 8⟩

def pShader6 : RaytraceParams := ⟨0, 1, 6, 4096, 4, true, 8⟩

/-- A fresh 1×1 render state over the miss-world and the environment-less
scene. -/
def st1 : RaytraceState := make_raytrace_state baseWorld noEnvScene pRay

/-! ## C9: unknown shader variant fails before any sampling -/

/-- C9: for every parameter record whose `shader` field lies outside the
six recognized variants (values 0-5), a `raytrace_samples` call fails with
the configuration error thrown by `get_shader` before any pixel is shaded,
and the render state is returned unchanged. -/
theorem raytrace_samples_unknown_shader (fuel : ℕ) (w : World)
    (scene : SceneData) (params : RaytraceParams) (st : RaytraceState)
    (h : 6 ≤ params.shader) :
    raytrace_samples fuel w scene params st = (st, some RenderErr.configError) := by
  have hnone : get_shader params = none := by
    unfold get_shader
    split
    any_goals omega
    rfl
  simp [raytrace_samples, hnone]

/-- C9 witness: a concrete call with shader value 6 on the fresh 1×1 state
fails with the configuration error and leaves the state unchanged. -/
theorem raytrace_samples_unknown_shader_witness :
    raytrace_samples 1 baseWorld noEnvScene pShader6 st1
      = (st1, some RenderErr.configError) :=
  raytrace_samples_unknown_shader 1 baseWorld noEnvScene pShader6 st1 (by decide)

/-! ## C8: shape-mismatched extraction fails without mutation -/

/-- C8: `get_image(image, state)` fails whenever the destination's width,
height or linear flag disagrees with the render state (whose accumulation
is linear), and in that case the destination is returned unmodified. -/
theorem get_image_mismatch_fails_unmutated (image : ColorImage)
    (st : RaytraceState)
    (h : image.width ≠ st.width ∨ image.height ≠ st.height ∨ image.linear ≠ true) :
    (get_image_into image st).1 = image ∧ ((get_image_into image st).2).isSome = true := by
  by_cases hs : image.width ≠ st.width ∨ image.height ≠ st.height
  · simp [get_image_into, check_image, hs]
  · have hl : image.linear ≠ true := by tauto
    simp [get_image_into, check_image, hs, hl]

/-- C8 witness: extracting into a 2×1 destination from the 1×1 state fails
and returns the destination untouched. -/
theorem get_image_mismatch_fails_unmutated_witness :
    (get_image_into (make_image 2 1 true) st1).1 = make_image 2 1 true
      ∧ ((get_image_into (make_image 2 1 true) st1).2).isSome = true :=
  get_image_mismatch_fails_unmutated (make_image 2 1 true) st1 (by decide)

/-! ## C7: extraction mid-convergence; the fresh-state division -/

/-- C7 counterexample: on a freshly created state the sample counter is 0,
so `scale = 1.0f / 0.0f = +inf` and every accumulated channel is
`0 * inf = NaN`: the extracted pixel is not a well-defined displayable
value, contrary to the claim that extraction is well-defined "including a
freshly created state whose sample counter is 0". -/
theorem get_image_fresh_state_nan :
    (get_image_state st1).pixels = [⟨FVal.nan, FVal.nan, FVal.nan, FVal.nan⟩]
      ∧ ((get_image_state st1).pixels.all FColor.isDisplayable) = false := by
  with_unfolding_all decide

/-- C7 (amended): for every render state whose sample counter is at least
1, `get_image` sets every destination pixel to the accumulated RGBA
divided by the sample count, and every extracted pixel is a well-defined
(finite) displayable value.  At sample count 0 the division produces NaN
pixels instead. -/
theorem get_image_normalizes (st : RaytraceState) (h : 1 ≤ st.samples) :
    (get_image_state st).pixels
        = st.image.map (normPixel (FVal.fin (1 / (st.samples : ℚ))))
      ∧ ∀ c ∈ (get_image_state st).pixels, c.isDisplayable = true := by
  have hns : ((st.samples : ℚ)) ≠ 0 := by
    exact_mod_cast Nat.one_le_iff_ne_zero.mp h
  have hscale : fdiv (FVal.fin 1) (FVal.fin (st.samples : ℚ))
      = FVal.fin (1 / (st.samples : ℚ)) := by
    simp [fdiv, hns]
  constructor
  · simp [get_image_state, get_image_into, check_image, make_image, hscale]
  · intro c hc
    simp [get_image_state, get_image_into, check_image, make_image, hscale,
      List.mem_map] at hc
    obtain ⟨v, _, hv⟩ := hc
    subst hv
    simp [normPixel, fmul, FColor.isDisplayable, FVal.isDisplayable]

/-- C7 witness: a 1×1 state with one accumulated sample extracts to the
finite pixel `(2, 0, 0, 1)`. -/
theorem get_image_normalizes_witness :
    (get_image_state ⟨1, 1, 1, [⟨2, 0, 0, 1⟩], [1], [0]⟩).pixels
        = [⟨2, 0, 0, 1⟩].map (normPixel (FVal.fin (1 / ((1 : ℕ) : ℚ))))
      ∧ ∀ c ∈ (get_image_state ⟨1, 1, 1, [⟨2, 0, 0, 1⟩], [1], [0]⟩).pixels,
          c.isDisplayable = true :=
  get_image_normalizes ⟨1, 1, 1, [⟨2, 0, 0, 1⟩], [1], [0]⟩ (by decide)

/-! ## C3: miss handling across the shading variants -/

/-- C3 counterexample: the claimed uniform miss-handling is false on both
counts.  On a missing ray in a scene with NO environments,
`shade_raytrace` returns alpha 1, not the claimed alpha 0; and in a scene
WITH an environment of emission `(5,5,5)`, `shade_eyelight` returns zero
radiance with alpha 0 instead of the claimed summed environment emission
with alpha 1. -/
theorem shade_miss_claim_false :
    shade_raytrace baseWorld noEnvScene pRay 1 ray0 0 0 = some (⟨0, 0, 0, 1⟩, 0)
      ∧ shade_eyelight baseWorld envScene pRay ray0 0 0 = (⟨0, 0, 0, 0⟩, 0)
      ∧ envRadiance baseWorld envScene ray0.d = ⟨5, 5, 5⟩ := by
  with_unfolding_all decide

/-- C3 (amended): the variants do NOT handle a miss identically.  On every
ray the intersector misses, `shade_raytrace` and `shade_matte` return the
sum of every environment's emission with alpha 1 unconditionally (alpha 1
even when the scene has no environments), while `shade_eyelight`,
`shade_normal`, `shade_texcoord` and `shade_color` return zero radiance
with alpha 0 and never evaluate environment emission. -/
theorem shade_miss_behavior (w : World) (scene : SceneData)
    (params : RaytraceParams) (ray : Ray) (bounce : ℤ) (rng : Rng) (fuel : ℕ)
    (h : w.intersect ray = none) :
    shade_raytrace w scene params (fuel + 1) ray bounce rng
        = some (⟨(envRadiance w scene ray.d).x, (envRadiance w scene ray.d).y,
            (envRadiance w scene ray.d).z, 1⟩, rng)
      ∧ shade_matte w scene params (fuel + 1) ray bounce rng
        = some (⟨(envRadiance w scene ray.d).x, (envRadiance w scene ray.d).y,
            (envRadiance w scene ray.d).z, 1⟩, rng)
      ∧ shade_eyelight w scene params ray bounce rng = (⟨0, 0, 0, 0⟩, rng)
      ∧ shade_normal w scene params ray bounce rng = (⟨0, 0, 0, 0⟩, rng)
      ∧ shade_texcoord w scene params ray bounce rng = (⟨0, 0, 0, 0⟩, rng)
      ∧ shade_color w scene params ray bounce rng = (⟨0, 0, 0, 0⟩, rng) := by
  refine ⟨?_, ?_, ?_, ?_, rfl, ?_⟩ <;>
    simp [shade_raytrace, shade_matte, shade_eyelight, shade_normal,
      shade_color, h]

/-- C3 witness: the miss behavior evaluated on the environment scene. -/
theorem shade_miss_behavior_witness :
    shade_raytrace baseWorld envScene pRay (0 + 1) ray0 0 0
        = some (⟨(envRadiance baseWorld envScene ray0.d).x,
            (envRadiance baseWorld envScene ray0.d).y,
            (envRadiance baseWorld envScene ray0.d).z, 1⟩, 0)
      ∧ shade_matte baseWorld envScene pRay (0 + 1) ray0 0 0
        = some (⟨(envRadiance baseWorld envScene ray0.d).x,
            (envRadiance baseWorld envScene ray0.d).y,
            (envRadiance baseWorld envScene ray0.d).z, 1⟩, 0)
      ∧ shade_eyelight baseWorld envScene pRay ray0 0 0 = (⟨0, 0, 0, 0⟩, 0)
      ∧ shade_normal baseWorld envScene pRay ray0 0 0 = (⟨0, 0, 0, 0⟩, 0)
      ∧ shade_texcoord baseWorld envScene pRay ray0 0 0 = (⟨0, 0, 0, 0⟩, 0)
      ∧ shade_color baseWorld envScene pRay ray0 0 0 = (⟨0, 0, 0, 0⟩, 0) :=
  shade_miss_behavior baseWorld envScene pRay ray0 0 0 0 rfl

/-! ## C4: the bounce budget and the opacity pass-through path -/

/-- The emission `shade_raytrace` evaluates at a hit: the material's
emission modulated by its emission texture at the hit's texture
coordinates (a projection of the function body, used to state claims). -/
def emissionAt (w : World) (scene : SceneData) (hit : HitInfo) : Vec3 :=
  let inst := scene.instances.getD hit.instIdx defaultInstance
  let material := scene.materials.getD inst.material defaultMaterial
  let texcoord := w.evalTexcoord inst.shape hit.element hit.uv
  v3mul material.emission (xyz (evalTexture w material.emission_tex texcoord))

/-- The opacity `shade_raytrace` evaluates at a hit: the material's
opacity times the alpha of its color texture at the hit's texture
coordinates. -/
def opacityAt (w : World) (scene : SceneData) (hit : HitInfo) : ℚ :=
  let inst := scene.instances.getD hit.instIdx defaultInstance
  let material := scene.materials.getD inst.material defaultMaterial
  let texcoord := w.evalTexcoord inst.shape hit.element hit.uv
  material.opacity * (evalTexture w material.color_tex texcoord).w

/-- C4 counterexample: at bounce depth `1 > params.bounces = 0`, on a hit
against the fully transparent material `matClear` (emission `(5,5,5)`,
opacity 0) the claim demands a return of accumulated emission with no
further recursive call.  Instead the stochastic opacity pass-through path
recurses: with fuel 1 the call cannot even complete (a recursive call was
made), and with fuel 2 it returns the radiance of the continuation ray
`(0,0,0,1)` — not the hit's emission `(5,5,5)`. -/
theorem shade_raytrace_depth_claim_false :
    shade_raytrace hitWorld clearScene pB0 1 ray0 1 0 = none
      ∧ shade_raytrace hitWorld clearScene pB0 2 ray0 1 0 = some (⟨0, 0, 0, 1⟩, 1)
      ∧ emissionAt hitWorld clearScene hit0 = ⟨5, 5, 5⟩ := by
  with_unfolding_all decide

/-- C4 (amended): the bounce budget truncates only the BRDF-sampling
paths: when the bounce depth exceeds `params.bounces` and the opacity test
retains the surface (the uniform draw is at least `1 - opacity`),
`shade_raytrace` returns the accumulated emission with alpha 1 after the
single opacity draw and makes no recursive call (fuel 1 suffices).  The
opacity pass-through path, checked BEFORE the bounce test, still recurses
at any bounce depth, so recursion depth is not bounded by the bounce
budget alone. -/
theorem shade_raytrace_depth_truncates (w : World) (scene : SceneData)
    (params : RaytraceParams) (ray : Ray) (bounce : ℤ) (rng : Rng)
    (hit : HitInfo)
    (hhit : w.intersect ray = some hit)
    (hop : ¬ ((w.rand1f rng).1 < 1 - opacityAt w scene hit))
    (hb : params.bounces < bounce) :
    shade_raytrace w scene params 1 ray bounce rng
      = some (⟨(emissionAt w scene hit).x, (emissionAt w scene hit).y,
          (emissionAt w scene hit).z, 1⟩, (w.rand1f rng).2) := by
  have hb' : bounce > params.bounces := hb
  simp only [shade_raytrace, hhit]
  rw [if_neg (by simpa [opacityAt] using hop), if_pos hb']
  simp [emissionAt]

/-- C4 witness: an opaque emissive hit at bounce 1 with budget 0 returns
its emission `(7,7,7)` with no recursion. -/
theorem shade_raytrace_depth_truncates_witness :
    shade_raytrace hitWorld noEnvScene pB0 1 ray0 1 0
      = some (⟨(emissionAt hitWorld noEnvScene hit0).x,
          (emissionAt hitWorld noEnvScene hit0).y,
          (emissionAt hitWorld noEnvScene hit0).z, 1⟩,
          (hitWorld.rand1f 0).2) :=
  shade_raytrace_depth_truncates hitWorld noEnvScene pB0 ray0 1 0 hit0
    (by with_unfolding_all decide) (by with_unfolding_all decide)
    (by decide)

/-! ## C6: emissive quad under the matte variant with bounces = 0 -/

/-- The diffuse continuation ray `shade_matte` casts from a hit when the
bounce budget is not yet exceeded: origin at the evaluated hit position,
direction cosine-sampled about the evaluated shading normal with the two
draws of `rand2f` (a projection of the function body, used to state
scenario hypotheses). -/
def matteBounceRay (w : World) (scene : SceneData) (hit : HitInfo)
    (rng : Rng) : Ray :=
  let inst := scene.instances.getD hit.instIdx defaultInstance
  let position := w.transformPoint inst.frame
    (w.evalPosition inst.shape hit.element hit.uv)
  let normal := w.transformNormal inst.frame
    (w.evalNormal inst.shape hit.element hit.uv)
  ⟨position, w.sampleHemisphereCos normal (rand2f w rng).1⟩

/-- C6: in the single-emissive-quad scenario — the camera ray hits a
material with no emission texture, the scene has no environments, and the
diffuse continuation ray sampled at the hit misses — `shade_matte` at
bounce 0 with `params.bounces = 0` returns exactly the material's
emission with alpha 1: the one diffuse bounce the code still takes at
bounce 0 contributes zero radiance. -/
theorem shade_matte_emissive_quad (w : World) (scene : SceneData)
    (params : RaytraceParams) (ray : Ray) (rng : Rng) (hit : HitInfo)
    (mat : MaterialData) (fuel : ℕ)
    (hb : params.bounces = 0)
    (hhit : w.intersect ray = some hit)
    (hmat : scene.materials.getD
        (scene.instances.getD hit.instIdx defaultInstance).material
        defaultMaterial = mat)
    (hemtex : mat.emission_tex = -1)
    (hmiss : w.intersect (matteBounceRay w scene hit rng) = none)
    (henv : scene.environments = []) :
    shade_matte w scene params (fuel + 2) ray 0 rng
      = some (⟨mat.emission.x, mat.emission.y, mat.emission.z, 1⟩,
          (rand2f w rng).2) := by
  have h2 : ¬ ((0 : ℤ) > params.bounces) := by omega
  simp only [shade_matte, hhit, hmat]
  rw [if_neg h2]
  have hmiss' : w.intersect
      ⟨w.transformPoint (scene.instances.getD hit.instIdx defaultInstance).frame
        (w.evalPosition (scene.instances.getD hit.instIdx defaultInstance).shape
          hit.element hit.uv),
       w.sampleHemisphereCos
        (w.transformNormal (scene.instances.getD hit.instIdx defaultInstance).frame
          (w.evalNormal (scene.instances.getD hit.instIdx defaultInstance).shape
            hit.element hit.uv))
        (rand2f w rng).1⟩ = none := by
    simpa [matteBounceRay] using hmiss
  simp only [shade_matte, hmiss']
  simp [envRadiance, henv, evalTexture, hemtex, v3mul, v3add, xyz, v3zero]

/-- C6 witness: the concrete emissive quad (emission `(7,7,7)`, no
textures) hit by `ray0`, whose continuation ray starts at `(0,0,5)` and
misses, shades to `(7,7,7,1)`. -/
theorem shade_matte_emissive_quad_witness :
    shade_matte hitWorld noEnvScene pMatte0 (0 + 2) ray0 0 0
      = some (⟨matEmissive.emission.x, matEmissive.emission.y,
          matEmissive.emission.z, 1⟩, (rand2f hitWorld 0).2) :=
  shade_matte_emissive_quad hitWorld noEnvScene pMatte0 ray0 0 hit0
    matEmissive 0 (by decide) (by with_unfolding_all decide) rfl rfl
    (by with_unfolding_all decide) rfl

/-! ## C1: sequential vs pixel-parallel sampling pass -/

/-- When the dispatched shader is the `color` variant, the sequential
per-pixel body coincides with the parallel branch's hardcoded
`shade_color` body, for any two parameter records: `shade_color` ignores
both the bounce argument and the parameter record and never draws from
the RNG. -/
theorem seqPixel_color (w : World) (scene : SceneData)
    (p q : RaytraceParams) (camera : CameraData) (fuel : ℕ)
    (st : RaytraceState) (idx : ℕ) :
    seqPixel w scene p camera ShaderKind.color fuel st idx
      = some (parPixel w scene q camera st idx) := rfl

/-- Folding the sequential `color` body over any pixel list equals the
parallel fold, with no error. -/
theorem seqFold_color (w : World) (scene : SceneData) (p q : RaytraceParams)
    (camera : CameraData) (fuel : ℕ) :
    ∀ (l : List ℕ) (st : RaytraceState),
      seqFold w scene p camera ShaderKind.color fuel l st
        = (l.foldl (parPixel w scene q camera) st, none)
  | [], _ => rfl
  | idx :: rest, st => by
    simp only [seqFold, seqPixel_color w scene p q, List.foldl_cons]
    exact seqFold_color w scene p q camera fuel rest
      (parPixel w scene q camera st idx)

/-- C1 counterexample: one sampling pass is NOT invariant to the execution
mode.  From the same fresh 1×1 state, with the `raytrace` shader selected
and a scene with no geometry hit and no environments, the sequential mode
accumulates `(0,0,0,1)` and counts one hit, while the pixel-parallel mode
— whose body hardcodes `shade_color` at bounce `params.bounces` instead of
the selected shader at bounce 0 — accumulates `(0,0,0,0)` and counts no
hit.  The two parameter records differ only in the `noparallel` flag. -/
theorem raytrace_samples_modes_differ :
    pRayPar = { pRay with noparallel := false }
      ∧ (raytrace_samples 1 baseWorld noEnvScene pRay st1).1.image = [⟨0, 0, 0, 1⟩]
      ∧ (raytrace_samples 1 baseWorld noEnvScene pRayPar st1).1.image = [⟨0, 0, 0, 0⟩]
      ∧ (raytrace_samples 1 baseWorld noEnvScene pRay st1).1.hits = [1]
      ∧ (raytrace_samples 1 baseWorld noEnvScene pRayPar st1).1.hits = [0] := by
  refine ⟨rfl, ?_, ?_, ?_, ?_⟩ <;>
    set_option maxRecDepth 2000 in with_unfolding_all decide

/-- C1 (amended): one sampling pass is bit-for-bit invariant to the
execution mode exactly when the two modes run the same per-pixel
computation, i.e. when the selected shader is the `color` variant
(`params.shader = 5`) that the parallel branch hardcodes: then the
sequential and pixel-parallel passes from equal starting states produce
equal accumulation buffers, hit counts and sample counters.  For any other
selected shader the parallel branch substitutes `shade_color` at bounce
`params.bounces`, and the modes diverge as the counterexample shows. -/
theorem raytrace_samples_modes_agree_color (fuel : ℕ) (w : World)
    (scene : SceneData) (params : RaytraceParams) (st : RaytraceState)
    (h : params.shader = 5) :
    raytrace_samples fuel w scene { params with noparallel := true } st
      = raytrace_samples fuel w scene { params with noparallel := false } st := by
  have h5t : get_shader { params with noparallel := true }
      = some ShaderKind.color := by
    simp [get_shader, h]
  have h5f : get_shader { params with noparallel := false }
      = some ShaderKind.color := by
    simp [get_shader, h]
  simp [raytrace_samples, h5t, h5f,
    seqFold_color w scene { params with noparallel := true }
      { params with noparallel := false }]

/-- C1 witness: with the `color` shader the two modes agree on the
concrete fresh 1×1 state. -/
theorem raytrace_samples_modes_agree_color_witness :
    raytrace_samples 1 baseWorld noEnvScene { pColor with noparallel := true } st1
      = raytrace_samples 1 baseWorld noEnvScene { pColor with noparallel := false } st1 :=
  raytrace_samples_modes_agree_color 1 baseWorld noEnvScene pColor st1 rfl

/-! ## C5: determinism and the fixed-constant RNG seeding -/

/-- The RNG streams of a fresh state are exactly the seed list generated
from the fixed constants 1301081 and 961748941 over the pixel count —
nothing else of the scene or parameters enters the seeding. -/
theorem make_state_rngs_seeded (w : World) (scene : SceneData)
    (params : RaytraceParams) :
    (make_raytrace_state w scene params).rngs
      = seedRngs w ((make_raytrace_state w scene params).width
          * (make_raytrace_state w scene params).height)
          (w.makeRng 1301081 1) := rfl

/-- C5: rendering is reproducible.  Two render states freshly created
from the same (world, scene, params), each advanced by the same number of
sequential sampling passes, carry identical accumulation buffers, hit
counts and sample counters; and the per-pixel RNG streams of a fresh
state are a function of the pixel count alone (seeded from the fixed
constants via a deterministic per-pixel sub-seed sequence — the model has
no wall-clock, thread-id or ordering input at all). -/
theorem rendering_deterministic (w : World) (scene scene' : SceneData)
    (params params' : RaytraceParams) (fuel n : ℕ) (s1 s2 : RaytraceState)
    (h1 : s1 = make_raytrace_state w scene params)
    (h2 : s2 = make_raytrace_state w scene params)
    (hc : (make_raytrace_state w scene params).width
          * (make_raytrace_state w scene params).height
        = (make_raytrace_state w scene' params').width
          * (make_raytrace_state w scene' params').height) :
    (((fun s => (raytrace_samples fuel w scene
          { params with noparallel := true } s).1)^[n] s1).image
        = ((fun s => (raytrace_samples fuel w scene
            { params with noparallel := true } s).1)^[n] s2).image
      ∧ ((fun s => (raytrace_samples fuel w scene
            { params with noparallel := true } s).1)^[n] s1).hits
        = ((fun s => (raytrace_samples fuel w scene
            { params with noparallel := true } s).1)^[n] s2).hits
      ∧ ((fun s => (raytrace_samples fuel w scene
            { params with noparallel := true } s).1)^[n] s1).samples
        = ((fun s => (raytrace_samples fuel w scene
            { params with noparallel := true } s).1)^[n] s2).samples)
      ∧ (make_raytrace_state w scene params).rngs
        = (make_raytrace_state w scene' params').rngs := by
  subst h1
  subst h2
  refine ⟨⟨rfl, rfl, rfl⟩, ?_⟩
  rw [make_state_rngs_seeded, make_state_rngs_seeded, hc]

/-- C5 witness: the determinism theorem evaluated at the fresh 1×1 state,
one sequential pass, against a second scene (an added environment light)
with the same pixel count. -/
theorem rendering_deterministic_witness :
    (make_raytrace_state baseWorld noEnvScene pRay).rngs
      = (make_raytrace_state baseWorld envScene pRay).rngs :=
  (rendering_deterministic baseWorld noEnvScene envScene pRay pRay 1 1 st1 st1
    rfl rfl (by with_unfolding_all decide)).2

/-! ## C10: hit-count semantics, async worker vs sequential driver -/

/-- The unconditional per-pixel hit-count update of the async worker:
`state.hits[idx] += 1`. -/
def incrAt (h : List ℕ) (idx : ℕ) : List ℕ := h.set idx (h.getD idx 0 + 1)

/-- A successful async pixel body bumps the pixel's hit count by one,
unconditionally, and leaves the dimensions unchanged. -/
theorem asyncPixel_some_hits (w : World) (scene : SceneData)
    (params : RaytraceParams) (camera : CameraData) (sk : ShaderKind)
    (fuel : ℕ) (st st' : RaytraceState) (idx : ℕ)
    (h : asyncPixel w scene params camera sk fuel st idx = some st') :
    st'.hits = incrAt st.hits idx := by
  unfold asyncPixel at h
  dsimp only at h
  split at h
  · exact Option.noConfusion h
  · injection h with h'
    subst h'
    rfl

/-- Through a fully un-stopped async pass, the hit buffer evolves by the
fold of the unconditional increments over the visited pixel indices. -/
theorem asyncFold_hits (w : World) (scene : SceneData)
    (params : RaytraceParams) (camera : CameraData) (sk : ShaderKind)
    (fuel : ℕ) :
    ∀ (l : List ℕ) (st st' : RaytraceState),
      asyncFold w scene params camera sk fuel (fun _ => false) l st = (st', none) →
      st'.hits = l.foldl incrAt st.hits := by
  intro l
  induction l with
  | nil =>
    intro st st' h
    simp only [asyncFold] at h
    cases h
    rfl
  | cons idx rest ih =>
    intro st st' h
    simp only [asyncFold, if_neg (by simp : ¬ false = true)] at h
    rcases hA : asyncPixel w scene params camera sk fuel st idx with _ | st1
    · rw [hA] at h
      cases h
    · rw [hA] at h
      rw [List.foldl_cons, ← asyncPixel_some_hits w scene params camera sk fuel st st1 idx hA]
      exact ih st1 st' h

/-- Folding the unconditional increments over `range' s k` bumps every
entry from position `s` on by one, when `s + k` covers the list. -/
theorem foldIncr_range' (k : ℕ) :
    ∀ (s : ℕ) (l : List ℕ), s + k = l.length →
      (List.range' s k).foldl incrAt l
        = l.take s ++ (l.drop s).map (fun n => n + 1) := by
  induction k with
  | zero =>
    intro s l h
    have hd : l.drop s = [] := List.drop_eq_nil_of_le (by omega)
    have ht : l.take s = l := List.take_of_length_le (by omega)
    simp [List.range', hd, ht]
  | succ k ih =>
    intro s l h
    have hs : s < l.length := by omega
    rw [List.range'_succ, List.foldl_cons]
    have hlen : (incrAt l s).length = l.length := by simp [incrAt]
    rw [ih (s + 1) (incrAt l s) (by omega)]
    have hset : incrAt l s = l.take s ++ (l.getD s 0 + 1) :: l.drop (s + 1) := by
      simpa [incrAt] using List.set_eq_take_cons_drop (l.getD s 0 + 1) hs
    have htl : (l.take s).length = s := by
      simp [Nat.min_eq_left (Nat.le_of_lt hs)]
    have htake : (incrAt l s).take (s + 1) = l.take s ++ [l.getD s 0 + 1] := by
      rw [hset, List.take_append_eq_append_take, htl,
        List.take_of_length_le (by omega)]
      simp
    have hdrop : (incrAt l s).drop (s + 1) = l.drop (s + 1) := by
      rw [hset, List.drop_append_eq_append_drop, htl]
      simp
    rw [htake, hdrop]
    have hds : l.drop s = l.getD s 0 :: l.drop (s + 1) := by
      rw [List.getD_eq_getElem l 0 hs]
      exact List.drop_eq_getElem_cons hs
    rw [hds]
    simp

/-- C10: the hit-count buffer counts samples, not hits, on the async
path.  (1) Through an async pass that runs to completion (no stop
observed, no fuel exhaustion), every pixel's hit-count entry increases by
exactly one regardless of the shading result's alpha;  (2) concretely, on
the same fresh 1×1 state and an all-miss scene with the `color` shader —
whose per-sample alpha is 0 — a completed async pass records hit count 1
while the sequential driver, which increments only on positive alpha,
records hit count 0. -/
theorem hits_count_async_vs_seq :
    (∀ (w : World) (scene : SceneData) (params : RaytraceParams)
      (camera : CameraData) (sk : ShaderKind) (fuel : ℕ)
      (st st' : RaytraceState),
      st.hits.length = st.width * st.height →
      asyncFold w scene params camera sk fuel (fun _ => false)
          (List.range (st.width * st.height)) st = (st', none) →
      st'.hits = st.hits.map (fun n => n + 1))
    ∧ ((raytrace_start_run 1 baseWorld noEnvScene pColor false
          (fun _ => false) false st1).1.1.hits = [1]
        ∧ (raytrace_samples 1 baseWorld noEnvScene pColor st1).1.hits = [0]) := by
  constructor
  · intro w scene params camera sk fuel st st' hlen hrun
    rw [asyncFold_hits w scene params camera sk fuel _ st st' hrun,
      List.range_eq_range', foldIncr_range' (st.width * st.height) 0 st.hits
        (by omega)]
    simp
  · constructor <;> set_option maxRecDepth 2800 in with_unfolding_all decide

/-- C10 witness: the async hit-count statement applied to the concrete
1×1 state. -/
theorem hits_count_async_vs_seq_witness :
    (⟨1, 1, 0, [⟨0, 0, 0, 0⟩], [1], [961748944]⟩ : RaytraceState).hits
      = st1.hits.map (fun n => n + 1) :=
  hits_count_async_vs_seq.1 baseWorld noEnvScene pColor cam0 ShaderKind.color 1
    st1 ⟨1, 1, 0, [⟨0, 0, 0, 0⟩], [1], [961748944]⟩
    (by set_option maxRecDepth 2800 in with_unfolding_all decide)
    (by set_option maxRecDepth 2800 in with_unfolding_all exact rfl)

/-! ## C2: cancellation and the sample counter -/

/-- C2 (code-bug evaluation): a fully canceled pass still advances the
sample counter.  On the fresh 1×1 state, with the worker observing the
stop flag at every pixel and again before the final `done` assignment,
the pass contributes nothing to the accumulation and hit buffers and the
`done` flag stays false — but `state.samples += 1` runs unconditionally
after the (entirely skipped) `parallel_for`, so the counter advances from
0 to 1.  The spec (§7, §5) states a canceled pass does not advance the
sample counter; a later `get_image` would now divide the unchanged
accumulation by the inflated counter, so resumption is biased. -/
theorem canceled_pass_advances_counter :
    (raytrace_start_run 1 baseWorld noEnvScene pColor false (fun _ => true)
        true st1).1.1.samples = st1.samples + 1
      ∧ (raytrace_start_run 1 baseWorld noEnvScene pColor false (fun _ => true)
          true st1).1.1.image = st1.image
      ∧ (raytrace_start_run 1 baseWorld noEnvScene pColor false (fun _ => true)
          true st1).1.1.hits = st1.hits
      ∧ (raytrace_start_run 1 baseWorld noEnvScene pColor false (fun _ => true)
          true st1).1.2 = false := by
  refine ⟨?_, ?_, ?_, ?_⟩ <;>
    set_option maxRecDepth 2000 in with_unfolding_all decide

end RaytraceSpec
